import Mathlib

/-!
Verification of the Korean vowel mood analyzer core (`src/app.py`).

Embedding choices:
* A line of text is a `List Char` of Unicode codepoints; Python string
  iteration, membership and slicing become list operations.
* Unicode NFD is modelled at the codepoint level for the codepoint classes
  the analyzer distinguishes (see `nfdChar`).
* Python floats are modelled as exact rationals `ℚ`; every comparison the
  code makes against its threshold constants has the same outcome on the
  float values involved, because no comparison in the code sits inside the
  rounding error of the quantities compared.
* `collections.Counter` lookups become `List.count`; the Counter total
  `sum(counts.values())` is the sequence length.
-/

/-- Model of Unicode canonical decomposition (NFD) of one codepoint,
restricted to the codepoint classes this analyzer distinguishes: a
precomposed Hangul syllable (U+AC00..U+D7A3) decomposes algorithmically
into leading consonant, medial vowel and optional trailing consonant
conjoining jamo (UAX 15 Hangul decomposition); every other codepoint the
analyzer handles (conjoining jamo, Hangul compatibility jamo such as the
table's vowel glyphs, Latin letters, punctuation) has no canonical
decomposition and passes through unchanged. -/
def nfdChar (c : Char) : List Char :=
  let s := c.toNat
  if 0xAC00 ≤ s ∧ s ≤ 0xD7A3 then
    let si := s - 0xAC00
    let l := 0x1100 + si / 588
    let v := 0x1161 + si % 588 / 28
    let t := si % 28
    if t = 0 then [Char.ofNat l, Char.ofNat v]
    else [Char.ofNat l, Char.ofNat v, Char.ofNat (0x11A7 + t)]
  else [c]

/-- Python `unicodedata.normalize("NFD", line)`, as a list of codepoints. -/
def nfd (line : List Char) : List Char :=
  (line.map nfdChar).flatten

/-- The dict `JUNG_TO_VOWEL` of app.py lines 11-30, in the source's entry
order: NFD medial-vowel (jungseong) codepoints mapped to display vowel
glyphs (Hangul compatibility jamo). -/
def JUNG_TO_VOWEL : List (Char × Char) :=
  [('ᅡ', 'ㅏ'),
   ('ᅣ', 'ㅑ'),
   ('ᅥ', 'ㅓ'),
   ('ᅧ', 'ㅕ'),
   ('ᅩ', 'ㅗ'),
   ('ᅭ', 'ㅛ'),
   ('ᅮ', 'ㅜ'),
   ('ᅲ', 'ㅠ'),
   ('ᅳ', 'ㅡ'),
   ('ᅵ', 'ㅣ'),
   ('ᅪ', 'ㅘ'),
   ('ᅫ', 'ㅙ'),
   ('ᅬ', 'ㅚ'),
   ('ᅯ', 'ㅝ'),
   ('ᅰ', 'ㅞ'),
   ('ᅱ', 'ㅟ'),
   ('ᅴ', 'ㅢ')]

/-- Python `ch in JUNG_TO_VOWEL` together with the access
`JUNG_TO_VOWEL[ch]`, as one optional association-list lookup. -/
def jungLookup (ch : Char) : Option Char :=
  (JUNG_TO_VOWEL.find? (fun p => p.1 == ch)).map Prod.snd

/-- The dict's key list (the jungseong codepoints the table recognises). -/
def jungKeys : List Char := JUNG_TO_VOWEL.map Prod.fst

/-- The dict's value list: the vowel-glyph alphabet the analyzer works in. -/
def vowelAlphabet : List Char := JUNG_TO_VOWEL.map Prod.snd

/-- Function `extract_vowels` of app.py lines 38-45: NFD-decompose the
line, scan the codepoints, keep those that are keys of `JUNG_TO_VOWEL` and
map each to its glyph, dropping everything else. -/
def extract_vowels (line : List Char) : List Char :=
  (nfd line).filterMap jungLookup

/-- Constant `BRIGHT` of app.py line 33. -/
def BRIGHT : String := "ㅏㅑㅗㅛㅘㅙㅚ"

/-- Constant `DARK` of app.py line 34. -/
def DARK : String := "ㅓㅕㅜㅠㅝㅞㅟ"

/-- Constant `NEUTRAL` of app.py line 35. -/
def NEUTRAL : String := "ㅡㅣㅢ"

/-- Python `sum(counts[v] for v in cat)` where `counts = Counter(vowels)`:
a Counter lookup is the occurrence count in the list. -/
def category_count (cat : String) (vowels : List Char) : Nat :=
  (cat.toList.map (fun v => vowels.count v)).sum

/-- The metrics part of `analyze_vowels`'s 7-tuple result
`(counts, total, bright_ratio, dark_ratio, neutral_ratio, bright_index,
neutrality)`; the `counts` Counter itself is recovered by `List.count` on
the input sequence. -/
structure Metrics where
  total : Nat
  bright_ratio : ℚ
  dark_ratio : ℚ
  neutral_ratio : ℚ
  bright_index : ℚ
  neutrality : ℚ
deriving DecidableEq, Repr

/-- Function `analyze_vowels` of app.py lines 48-67.  `total` is
`sum(counts.values())`, i.e. the length of the input list; when it is zero
the function returns the explicit all-zero tuple, otherwise it divides the
three category counts by the total. -/
def analyze_vowels (vowels : List Char) : Metrics :=
  let total := vowels.length
  if total = 0 then
    ⟨0, 0, 0, 0, 0, 0⟩
  else
    let bright := category_count BRIGHT vowels
    let dark := category_count DARK vowels
    let neutral := category_count NEUTRAL vowels
    let bright_ratio : ℚ := (bright : ℚ) / (total : ℚ)
    let dark_ratio : ℚ := (dark : ℚ) / (total : ℚ)
    let neutral_ratio : ℚ := (neutral : ℚ) / (total : ℚ)
    let bright_index := bright_ratio - dark_ratio
    let neutrality := neutral_ratio
    ⟨total, bright_ratio, dark_ratio, neutral_ratio, bright_index, neutrality⟩

/-- Function `label_mood` of app.py lines 70-82: three-way threshold on
`bright_index`, then the calm qualifier is appended by `+=` whenever
`neutrality >= 0.45`. -/
def label_mood (bright_index neutrality : ℚ) : String :=
  let mood :=
    if bright_index ≥ 0.15 then "밝음"
    else if bright_index ≤ -0.15 then "어둠"
    else "중성/부드러움"
  if neutrality ≥ 0.45 then mood ++ " (평온/잔잔)" else mood

/-- Python `round(x, 4)` applied to the exact rational metrics: rounding to
four decimal places. -/
def round4 (x : ℚ) : ℚ := ((round (x * 10000) : ℤ) : ℚ) / 10000

/-- One dict of the `results` list of `sliding_window_analysis`: keys
`start`, `end`, `window`, `BrightIndex`, `Neutrality` and the label key.
The window text `"".join(window)` is the list of glyphs itself. -/
structure WindowResult where
  start : Nat
  endIdx : Nat
  window : List Char
  BrightIndex : ℚ
  Neutrality : ℚ
  label : String
deriving DecidableEq, Repr

/-- The loop body of `sliding_window_analysis` at start index `i` with
window width `m`: slice `all_vowels[i:i+m]`, score it, label it from the
unrounded metrics, store the metrics rounded to 4 decimals. -/
def window_entry (all_vowels : List Char) (m i : Nat) : WindowResult :=
  let window := (all_vowels.drop i).take m
  let met := analyze_vowels window
  { start := i
    endIdx := i + m - 1
    window := window
    BrightIndex := round4 met.bright_index
    Neutrality := round4 met.neutrality
    label := label_mood met.bright_index met.neutrality }

/-- Function `sliding_window_analysis` of app.py lines 85-103: empty result
when `n <= 0 or len(all_vowels) < n`, otherwise one `WindowResult` per
start index `i in range(len(all_vowels) - n + 1)`, in loop order. -/
def sliding_window_analysis (all_vowels : List Char) (n : Int) : List WindowResult :=
  if n ≤ 0 ∨ (all_vowels.length : Int) < n then []
  else (List.range (all_vowels.length - n.toNat + 1)).map (window_entry all_vowels n.toNat)

/-- Spec-side definition following the spec's words: the 21 possible Hangul
medial-vowel (jungseong) codepoints of canonical decomposition, U+1161
through U+1175. -/
def jungseong_codepoints_21 : List Char :=
  (List.range 21).map (fun k => Char.ofNat (0x1161 + k))

/-- Spec-side definition following the spec's words: canonical glyphs for
the 21 possible medial-vowel units of Hangul (monophthongs and diphthongs),
as Hangul compatibility jamo. -/
def medial_vowel_symbols_21 : List Char :=
  "ㅏㅐㅑㅒㅓㅔㅕㅖㅗㅘㅙㅚㅛㅜㅝㅞㅟㅠㅡㅢㅣ".toList

/-- The glyph the table displays an NFD codepoint as (meaningful on keys of
`JUNG_TO_VOWEL`). -/
def vowelSymbol (ch : Char) : Char := (jungLookup ch).getD ch

/-- Spec-side decomposer, following the spec's words amended to the code's
table: retain exactly the NFD codepoints that key the vowel table, mapping
each to its canonical glyph; drop every other codepoint. -/
def decompose_vowels_tabled (line : List Char) : List Char :=
  ((nfd line).filter (fun c => jungKeys.contains c)).map vowelSymbol

/-- Spec-side labeler, following the spec's words: a three-way primary label
from the brightIndex thresholds and, independently, a calm qualifier
concatenated exactly when neutrality is at least 0.45. -/
def labelMood_spec (bright_index neutrality : ℚ) : String :=
  (if bright_index ≥ 0.15 then "밝음"
   else if bright_index ≤ -0.15 then "어둠"
   else "중성/부드러움") ++
  (if neutrality ≥ 0.45 then " (평온/잔잔)" else "")

/-! Helper lemmas about the table lookup. -/

lemma jungLookup_eq_none {ch : Char} (h : ch ∉ jungKeys) : jungLookup ch = none := by
  have : JUNG_TO_VOWEL.find? (fun p => p.1 == ch) = none := by
    rw [List.find?_eq_none]
    intro p hp hbeq
    exact h (List.mem_map.mpr ⟨p, hp, by simpa using hbeq⟩)
  simp [jungLookup, this]

lemma jungLookup_isSome {ch : Char} (h : ch ∈ jungKeys) : (jungLookup ch).isSome := by
  rcases List.mem_map.mp h with ⟨p, hp, rfl⟩
  have : (JUNG_TO_VOWEL.find? (fun q => q.1 == p.1)).isSome :=
    List.find?_isSome.mpr ⟨p, hp, by simp⟩
  simpa [jungLookup] using this

lemma jungLookup_mem_alphabet {ch v : Char} (h : jungLookup ch = some v) :
    v ∈ vowelAlphabet := by
  rcases Option.map_eq_some'.mp h with ⟨p, hp, rfl⟩
  exact List.mem_map.mpr ⟨p, List.mem_of_find?_eq_some hp, rfl⟩

/-- The source's filterMap over the lookup is the spec's filter-then-map. -/
lemma filterMap_jungLookup (cs : List Char) :
    cs.filterMap jungLookup = (cs.filter (fun c => jungKeys.contains c)).map vowelSymbol := by
  induction cs with
  | nil => rfl
  | cons c t ih =>
    by_cases h : c ∈ jungKeys
    · obtain ⟨v, hv⟩ := Option.isSome_iff_exists.mp (jungLookup_isSome h)
      simp [List.filterMap_cons, List.filter_cons, h, hv, vowelSymbol, ih]
    · simp [List.filterMap_cons, List.filter_cons, h, jungLookup_eq_none h, ih]

/-! Helper lemmas about re-decomposition of the output alphabet. -/

lemma alphabet_nfd_inert : ∀ v ∈ vowelAlphabet, nfdChar v = [v] := by decide

lemma alphabet_not_key : ∀ v ∈ vowelAlphabet, jungLookup v = none := by decide

lemma extract_vowels_mem {line : List Char} {v : Char} (hv : v ∈ extract_vowels line) :
    v ∈ vowelAlphabet := by
  rcases List.mem_filterMap.mp hv with ⟨c, _, hc⟩
  exact jungLookup_mem_alphabet hc

lemma nfd_eq_self {l : List Char} (h : ∀ v ∈ l, v ∈ vowelAlphabet) : nfd l = l := by
  induction l with
  | nil => rfl
  | cons a t ih =>
    have ha := alphabet_nfd_inert a (h a (List.mem_cons_self a t))
    have ht := ih (fun v hv => h v (List.mem_cons_of_mem a hv))
    simp only [nfd, List.map_cons, List.flatten_cons] at ht ⊢
    simp [ha, ht]

/-! Helper lemmas about the category partition. -/

lemma cat_count_one :
    ∀ a ∈ vowelAlphabet,
      BRIGHT.toList.count a + DARK.toList.count a + NEUTRAL.toList.count a = 1 := by
  decide

lemma map_count_cons (cat : List Char) (a : Char) (t : List Char) :
    (cat.map (fun v => (a :: t).count v)).sum =
      (cat.map (fun v => t.count v)).sum + cat.count a := by
  induction cat with
  | nil => simp
  | cons c cs ih =>
    simp only [List.map_cons, List.sum_cons]
    rw [ih, List.count_cons, List.count_cons]
    by_cases h : c = a
    · simp [h]
      omega
    · have h1 : (c == a) = false := by simp [h]
      have h2 : (a == c) = false := by simp [Ne.symm h]
      simp [h1, h2]
      omega

lemma counts_partition {seq : List Char} (h : ∀ v ∈ seq, v ∈ vowelAlphabet) :
    category_count BRIGHT seq + category_count DARK seq + category_count NEUTRAL seq =
      seq.length := by
  induction seq with
  | nil => decide
  | cons a t ih =>
    have ha := cat_count_one a (h a (List.mem_cons_self a t))
    have ht := ih (fun v hv => h v (List.mem_cons_of_mem a hv))
    simp only [category_count, map_count_cons, List.length_cons]
    simp only [category_count] at ht
    omega


/-! The claims. -/

/-- C1 counterexample: the table is not the 21-entry medial-vowel table the
claim states.  The jungseong U+1162 (the medial vowel of 애) is one of the
21 medial-vowel units and survives NFD, yet `extract_vowels` silently drops
it. -/
theorem C1_counterexample :
    'ᅢ' ∈ jungseong_codepoints_21 ∧ 'ᅢ' ∈ nfd "애".toList ∧
      extract_vowels "애".toList = [] := by
  exact ⟨by decide, by decide, by decide⟩

/-- C1 (amended): the vowel table has 17 entries, keyed by the 21 jungseong
codepoints minus U+1162, U+1164, U+1166 and U+1168 (ㅐ, ㅒ, ㅔ, ㅖ); for
every input line `extract_vowels` retains exactly the NFD codepoints that
key the table, maps each to its canonical glyph, and silently drops every
other codepoint. -/
theorem C1_theorem :
    JUNG_TO_VOWEL.length = 17 ∧
    (∀ c ∈ jungseong_codepoints_21,
        (c ∈ jungKeys ↔ c ∉ ['ᅢ', 'ᅤ', 'ᅦ', 'ᅨ'])) ∧
    (∀ c ∈ jungKeys, c ∈ jungseong_codepoints_21) ∧
    (∀ line : List Char, extract_vowels line = decompose_vowels_tabled line) := by
  refine ⟨by decide, by decide, by decide, fun line => ?_⟩
  unfold extract_vowels decompose_vowels_tabled
  exact filterMap_jungLookup (nfd line)

/-- Witness for C1 at concrete inputs. -/
theorem C1_witness :
    ('ᅡ' ∈ jungKeys ↔ 'ᅡ' ∉ ['ᅢ', 'ᅤ', 'ᅦ', 'ᅨ']) ∧
    extract_vowels "아".toList = decompose_vowels_tabled "아".toList :=
  ⟨C1_theorem.2.1 'ᅡ' (by decide), C1_theorem.2.2.2 "아".toList⟩

/-- C2: for every sequence and integer width, the number of window results
is max(0, len − n + 1) for positive n and 0 otherwise; in particular the
function returns an empty list (never an error) when n ≤ 0 or n > len. -/
theorem C2_theorem (seq : List Char) (n : Int) :
    ((sliding_window_analysis seq n).length : Int) =
      if 0 < n then max 0 ((seq.length : Int) - n + 1) else 0 := by
  unfold sliding_window_analysis
  by_cases h : n ≤ 0 ∨ (seq.length : Int) < n
  · rw [if_pos h]
    rcases h with h | h
    · rw [if_neg (by omega)]
      rfl
    · by_cases h0 : 0 < n
      · rw [if_pos h0]
        simp only [List.length_nil, Nat.cast_zero]
        omega
      · rw [if_neg h0]
        rfl
  · rw [if_neg h]
    push_neg at h
    obtain ⟨h1, h2⟩ := h
    simp only [List.length_map, List.length_range]
    rw [if_pos (by omega : (0 : Int) < n)]
    omega

/-- C3: the labeler is the spec's three-way brightIndex threshold with the
calm qualifier appended independently exactly when neutrality ≥ 0.45, and
the threshold boundaries fall as the spec lists them. -/
theorem C3_theorem :
    (∀ bi neu : ℚ, label_mood bi neu = labelMood_spec bi neu) ∧
    label_mood 0.15 0 = "밝음" ∧
    label_mood (-0.15) 0 = "어둠" ∧
    label_mood 0.1499999 0 = "중성/부드러움" ∧
    label_mood 0 0.45 = "중성/부드러움 (평온/잔잔)" ∧
    label_mood 0 0.4499999 = "중성/부드러움" := by
  refine ⟨fun bi neu => ?_, ?_, ?_, ?_, ?_, ?_⟩
  · unfold label_mood labelMood_spec
    split_ifs <;> simp
  · norm_num [label_mood]
  · norm_num [label_mood]
  · norm_num [label_mood]
  · norm_num [label_mood]
    rfl
  · norm_num [label_mood]

/-- C4: for every non-empty sequence over the vowel alphabet the three
ratios of `analyze_vowels` sum to 1 within one billionth (they sum to 1
exactly in the rational model). -/
theorem C4_theorem (seq : List Char) (hmem : ∀ v ∈ seq, v ∈ vowelAlphabet)
    (hpos : 0 < seq.length) :
    |(analyze_vowels seq).bright_ratio + (analyze_vowels seq).dark_ratio +
        (analyze_vowels seq).neutral_ratio - 1| ≤ 1 / 1000000000 := by
  have hne : seq.length ≠ 0 := hpos.ne'
  have hT : ((seq.length : ℚ)) ≠ 0 := Nat.cast_ne_zero.mpr hne
  have hsum :
      (analyze_vowels seq).bright_ratio + (analyze_vowels seq).dark_ratio +
        (analyze_vowels seq).neutral_ratio = 1 := by
    simp only [analyze_vowels, if_neg hne]
    rw [div_add_div_same, div_add_div_same, div_eq_one_iff_eq hT]
    exact_mod_cast counts_partition hmem
  rw [hsum]
  norm_num

/-- Witness for C4 at a concrete one-element sequence. -/
theorem C4_witness :
    |(analyze_vowels ['ㅏ']).bright_ratio + (analyze_vowels ['ㅏ']).dark_ratio +
        (analyze_vowels ['ㅏ']).neutral_ratio - 1| ≤ 1 / 1000000000 :=
  C4_theorem ['ㅏ'] (by decide) (by decide)

/-- C5: on the empty distribution (total = 0) `analyze_vowels` returns the
all-zero sentinel through its explicit branch; the function is total, so no
division by zero and no exception can occur. -/
theorem C5_theorem (seq : List Char) (h : seq.length = 0) :
    analyze_vowels seq = ⟨0, 0, 0, 0, 0, 0⟩ := by
  rw [List.length_eq_zero] at h
  subst h
  rfl

/-- Witness for C5 at the empty sequence. -/
theorem C5_witness : analyze_vowels [] = ⟨0, 0, 0, 0, 0, 0⟩ :=
  C5_theorem [] rfl

/-- C6 counterexample: idempotence fails.  Re-decomposing the output of
`extract_vowels "아"` (the glyph list, which is what joining the output
concatenates) does not return that sequence: the glyph ㅏ is a Hangul
compatibility jamo with no canonical decomposition and is not a table key,
so the second pass drops it. -/
theorem C6_counterexample :
    extract_vowels (extract_vowels "아".toList) ≠ extract_vowels "아".toList := by
  decide

/-- C6 (amended): re-decomposing the concatenation of the output of
`extract_vowels` always yields the empty sequence, not the original one —
the output glyphs are compatibility jamo that NFD leaves intact and that
the table does not key — so re-decomposition is a no-op only for lines
without extractable vowels. -/
theorem C6_theorem (line : List Char) :
    extract_vowels (extract_vowels line) = [] := by
  have hmem : ∀ v ∈ extract_vowels line, v ∈ vowelAlphabet :=
    fun v hv => extract_vowels_mem hv
  show (nfd (extract_vowels line)).filterMap jungLookup = []
  rw [nfd_eq_self hmem, List.filterMap_eq_nil_iff]
  exact fun v hv => alphabet_not_key v (hmem v hv)

/-- C7 counterexample: the alphabet the category partition covers is not
21 symbols.  The glyph ㅐ is one of the 21 canonical medial-vowel glyphs
but belongs to no category and is not in the code's 17-glyph alphabet. -/
theorem C7_counterexample :
    'ㅐ' ∈ medial_vowel_symbols_21 ∧ 'ㅐ' ∉ BRIGHT.toList ∧ 'ㅐ' ∉ DARK.toList ∧
      'ㅐ' ∉ NEUTRAL.toList ∧ 'ㅐ' ∉ vowelAlphabet ∧ vowelAlphabet.length = 17 := by
  decide

/-- C7 (amended): the category table is total and exclusive over the
17-glyph vowel alphabet — each alphabet glyph occurs in exactly one of
BRIGHT, DARK, NEUTRAL — so for every sequence over the alphabet the three
category counts of `analyze_vowels` partition the distribution total. -/
theorem C7_theorem :
    (∀ a ∈ vowelAlphabet,
        BRIGHT.toList.count a + DARK.toList.count a + NEUTRAL.toList.count a = 1) ∧
    (∀ seq : List Char, (∀ v ∈ seq, v ∈ vowelAlphabet) →
        category_count BRIGHT seq + category_count DARK seq +
            category_count NEUTRAL seq = seq.length) :=
  ⟨cat_count_one, fun _ h => counts_partition h⟩

/-- Witness for C7 at a concrete glyph and sequence. -/
theorem C7_witness :
    BRIGHT.toList.count 'ㅏ' + DARK.toList.count 'ㅏ' + NEUTRAL.toList.count 'ㅏ' = 1 ∧
    category_count BRIGHT ['ㅏ', 'ㅓ'] + category_count DARK ['ㅏ', 'ㅓ'] +
        category_count NEUTRAL ['ㅏ', 'ㅓ'] = (['ㅏ', 'ㅓ'] : List Char).length :=
  ⟨C7_theorem.1 'ㅏ' (by decide), C7_theorem.2 ['ㅏ', 'ㅓ'] (by decide)⟩

/-- C8: for 0 < n ≤ len, the i-th window result records start index i, end
index i + n − 1, the window text of the n glyphs starting at i, and the
metrics and mood label obtained by scoring and labelling that contiguous
subsequence alone; results are ordered by ascending start index. -/
theorem C8_theorem (seq : List Char) (n : Nat) (hn : 0 < n) (hle : n ≤ seq.length)
    (i : Nat) (hi : i ≤ seq.length - n) :
    (sliding_window_analysis seq (n : Int))[i]? =
      some { start := i
             endIdx := i + n - 1
             window := (seq.drop i).take n
             BrightIndex := round4 (analyze_vowels ((seq.drop i).take n)).bright_index
             Neutrality := round4 (analyze_vowels ((seq.drop i).take n)).neutrality
             label := label_mood (analyze_vowels ((seq.drop i).take n)).bright_index
               (analyze_vowels ((seq.drop i).take n)).neutrality } := by
  have hcond : ¬ ((n : Int) ≤ 0 ∨ (seq.length : Int) < (n : Int)) := by
    push_neg
    constructor
    · exact_mod_cast hn
    · exact_mod_cast hle
  unfold sliding_window_analysis
  rw [if_neg hcond]
  have htn : ((n : Int)).toNat = n := Int.toNat_natCast n
  rw [htn, List.getElem?_map, List.getElem?_range (by omega : i < seq.length - n + 1)]
  rfl

/-- Witness for C8: the second window of the spec's three-glyph example. -/
theorem C8_witness :
    (sliding_window_analysis ['ㅏ', 'ㅓ', 'ㅣ'] ((2 : Nat) : Int))[1]? =
      some { start := 1
             endIdx := 1 + 2 - 1
             window := ((['ㅏ', 'ㅓ', 'ㅣ'].drop 1).take 2)
             BrightIndex :=
               round4 (analyze_vowels ((['ㅏ', 'ㅓ', 'ㅣ'].drop 1).take 2)).bright_index
             Neutrality :=
               round4 (analyze_vowels ((['ㅏ', 'ㅓ', 'ㅣ'].drop 1).take 2)).neutrality
             label :=
               label_mood (analyze_vowels ((['ㅏ', 'ㅓ', 'ㅣ'].drop 1).take 2)).bright_index
                 (analyze_vowels ((['ㅏ', 'ㅓ', 'ㅣ'].drop 1).take 2)).neutrality } :=
  C8_theorem ['ㅏ', 'ㅓ', 'ㅣ'] 2 (by decide) (by decide) 1 (by decide)

/-- C9: end-to-end example — 아 decomposes to the single glyph ㅏ, scoring
that one-element sequence gives total 1, bright ratio 1, dark and neutral
ratios 0, brightIndex 1, neutrality 0, and labelling (1, 0) gives the
bright label. -/
theorem C9_theorem :
    extract_vowels "아".toList = ['ㅏ'] ∧
    analyze_vowels ['ㅏ'] = ⟨1, 1, 0, 0, 1, 0⟩ ∧
    label_mood 1 0 = "밝음" := by
  refine ⟨by decide, ?_, by norm_num [label_mood]⟩
  have hb : category_count BRIGHT ['ㅏ'] = 1 := by decide
  have hd : category_count DARK ['ㅏ'] = 0 := by decide
  have hn : category_count NEUTRAL ['ㅏ'] = 0 := by decide
  simp only [analyze_vowels, hb, hd, hn]
  norm_num

/-- C10: every emitted window result stores the window's brightIndex and
neutrality rounded to 4 decimal places, while its mood label is computed
from the unrounded values. -/
theorem C10_theorem (seq : List Char) (n : Int) (r : WindowResult)
    (hr : r ∈ sliding_window_analysis seq n) :
    r.BrightIndex = round4 (analyze_vowels r.window).bright_index ∧
    r.Neutrality = round4 (analyze_vowels r.window).neutrality ∧
    r.label = label_mood (analyze_vowels r.window).bright_index
      (analyze_vowels r.window).neutrality := by
  unfold sliding_window_analysis at hr
  by_cases h : n ≤ 0 ∨ (seq.length : Int) < n
  · rw [if_pos h] at hr
    cases hr
  · rw [if_neg h] at hr
    rcases List.mem_map.mp hr with ⟨i, _, rfl⟩
    exact ⟨rfl, rfl, rfl⟩

/-- Witness for C10 at the first window of a concrete run. -/
theorem C10_witness :
    (window_entry ['ㅏ', 'ㅓ', 'ㅣ'] 2 0).BrightIndex =
        round4 (analyze_vowels (window_entry ['ㅏ', 'ㅓ', 'ㅣ'] 2 0).window).bright_index ∧
    (window_entry ['ㅏ', 'ㅓ', 'ㅣ'] 2 0).Neutrality =
        round4 (analyze_vowels (window_entry ['ㅏ', 'ㅓ', 'ㅣ'] 2 0).window).neutrality ∧
    (window_entry ['ㅏ', 'ㅓ', 'ㅣ'] 2 0).label =
        label_mood (analyze_vowels (window_entry ['ㅏ', 'ㅓ', 'ㅣ'] 2 0).window).bright_index
          (analyze_vowels (window_entry ['ㅏ', 'ㅓ', 'ㅣ'] 2 0).window).neutrality :=
  C10_theorem ['ㅏ', 'ㅓ', 'ㅣ'] 2 (window_entry ['ㅏ', 'ㅓ', 'ㅣ'] 2 0)
    (by
      rw [show sliding_window_analysis ['ㅏ', 'ㅓ', 'ㅣ'] 2 =
            [window_entry ['ㅏ', 'ㅓ', 'ㅣ'] 2 0, window_entry ['ㅏ', 'ㅓ', 'ㅣ'] 2 1]
          from rfl]
      exact List.mem_cons_self _ _)
